import Mathlib

/-!
Verification of the clipdeck/api-client request pipeline and
error-normalization policy.

The development shallowly embeds the TypeScript sources:

* `src/errors/index.ts` — the `ApiError` record and the `handleApiError`
  classification function (the post-response hook).
* `src/client.ts` (recovered from `src/unnamed/part_000`) — the `BaseClient`
  constructor (axios instance configuration, optional auth request
  interceptor, error response interceptor) and the five verb methods.
* `NotificationClient.markAsRead` (from `src/unnamed/part_002` / `part_003`)
  — the dual-routing resource method.

JavaScript dynamic values are embedded as follows: a field that may be a
string or absent becomes `Option String`; the JS `x || y` fallback returns
`y` exactly when `x` is falsy, and for a string-or-absent operand the only
falsy values are absence and the empty string, so it is embedded by `jsOr`.
Numeric `x || y` (used for the timeout) treats `0` as falsy, embedded by
`jsOrNat`.  Fallible code returns `Except`; the async token-getter is
embedded as a function from the invocation index to its result, so that
"invoked once per request" is observable as an index increment.
-/

/-- The body `{ error: { code, message, details } }` envelope as read
defensively by `handleApiError` via `data?.error?.code` etc.  Each field may
be absent.  `details` is an application-defined payload that the client
passes through untouched; it is embedded by an uninterpreted `String`. -/
structure ErrorEnvelope where
  code : Option String
  message : Option String
  details : Option String
deriving DecidableEq, Repr

/-- The part of an axios response that `handleApiError` reads: the HTTP
status and the decoded body.  `data = none` embeds a body that does not
carry the conventional error envelope (so `data?.error?.code` is absent). -/
structure AxiosResponse where
  status : Nat
  data : Option ErrorEnvelope
deriving DecidableEq, Repr

/-- A value caught by the response interceptor, as `handleApiError` can
distinguish it:

* `axiosErr response hasRequest message` — a value for which
  `axios.isAxiosError` holds, with its optional `response`, the truthiness
  of its `request` field, and its own `message` string (an axios error is an
  `Error`, so it always has one).  An axios error is also an `instanceof
  Error` value, which matters for branch precedence.
* `jsError message` — an `instanceof Error` value that is not an axios error.
* `nonError` — any thrown value that is none of the above (a string, `null`,
  a number, ...). -/
inductive CaughtValue where
  | axiosErr (response : Option AxiosResponse) (hasRequest : Bool) (message : String)
  | jsError (message : String)
  | nonError
deriving DecidableEq, Repr

/-- `axios.isAxiosError(error)`. -/
def CaughtValue.isAxiosError : CaughtValue → Bool
  | .axiosErr .. => true
  | _ => false

/-- `error.response` (an object when present, hence truthy exactly when
present). -/
def CaughtValue.response : CaughtValue → Option AxiosResponse
  | .axiosErr r _ _ => r
  | _ => none

/-- Truthiness of `error.request`. -/
def CaughtValue.hasRequest : CaughtValue → Bool
  | .axiosErr _ q _ => q
  | _ => false

/-- `error instanceof Error`.  True for axios errors too, since `AxiosError`
extends `Error`. -/
def CaughtValue.isError : CaughtValue → Bool
  | .axiosErr .. => true
  | .jsError _ => true
  | .nonError => false

/-- `error.message` for `instanceof Error` values (`""` otherwise; branch 4
never reads it). -/
def CaughtValue.message : CaughtValue → String
  | .axiosErr _ _ m => m
  | .jsError m => m
  | .nonError => ""

/-- The normalized error record (`ApiError` in `src/errors/index.ts`):
machine-readable `code`, human-readable `message`, HTTP `status` (0 when no
response was received), optional pass-through `details`. -/
structure ApiError where
  code : String
  message : String
  status : Nat
  details : Option String
deriving DecidableEq, Repr

/-- JS `a || b` where `a` is a string-or-absent expression: the result is
the value of `a` when it is a truthy (present and non-empty) string, else `b`. -/
def jsOr (a : Option String) (b : String) : String :=
  match a with
  | some s => if s = "" then b else s
  | none => b

/-- JS `a || b` on two strings (the left operand is falsy iff empty). -/
def jsOrS (a b : String) : String :=
  if a = "" then b else a

/-- JS `a || b` where `a` is a number-or-absent expression: `0` is falsy. -/
def jsOrNat (a : Option Nat) (b : Nat) : Nat :=
  match a with
  | some n => if n = 0 then b else n
  | none => b

/-- `handleApiError` from `src/errors/index.ts`, branch for branch:

1. `axios.isAxiosError(error) && error.response` — build the `ApiError`
   from the envelope with the `||` fallbacks of the source
   (`data?.error?.code` with fallback `UNKNOWN_ERROR`,
   `data?.error?.message` with fallbacks `error.message` and `Unknown error`,
   `error.response.status`, `data?.error?.details`);
2. `axios.isAxiosError(error) && error.request` — fixed `NETWORK_ERROR`
   at status 0 (in the embedding this is an axios error whose response is
   absent, since a present response is caught by branch 1);
3. `error instanceof Error` — `CLIENT_ERROR`, the message of the error itself,
   status 0; an axios error with neither response nor request lands here
   because `AxiosError` extends `Error`;
4. fallback — fixed `UNKNOWN_ERROR` at status 0. -/
def handleApiError : CaughtValue → ApiError
  | .axiosErr (some resp) _ msg =>
      { code := jsOr (resp.data.bind ErrorEnvelope.code) "UNKNOWN_ERROR"
      , message := jsOr (resp.data.bind ErrorEnvelope.message) (jsOrS msg "Unknown error")
      , status := resp.status
      , details := resp.data.bind ErrorEnvelope.details }
  | .axiosErr none true _ =>
      { code := "NETWORK_ERROR"
      , message := "Network error - unable to reach server"
      , status := 0
      , details := none }
  | .axiosErr none false msg =>
      { code := "CLIENT_ERROR", message := msg, status := 0, details := none }
  | .jsError msg =>
      { code := "CLIENT_ERROR", message := msg, status := 0, details := none }
  | .nonError =>
      { code := "UNKNOWN_ERROR"
      , message := "An unknown error occurred"
      , status := 0
      , details := none }

/-- The four classification branches of `handleApiError`. -/
inductive ErrorBranch where
  | responsePresent
  | requestNoResponse
  | localError
  | fallback
deriving DecidableEq, Repr

/-- Guard of branch 1: `axios.isAxiosError(error) && error.response`. -/
def respPresentGuard (e : CaughtValue) : Bool :=
  e.isAxiosError && e.response.isSome

/-- Guard of branch 2: `axios.isAxiosError(error) && error.request`. -/
def reqGuard (e : CaughtValue) : Bool :=
  e.isAxiosError && e.hasRequest

/-- The branch `handleApiError` takes, by the guard order of the source. -/
def branchOf (e : CaughtValue) : ErrorBranch :=
  if respPresentGuard e then .responsePresent
  else if reqGuard e then .requestNoResponse
  else if e.isError then .localError
  else .fallback

/-- A caught axios failure whose response was received: status, optional
envelope body, request-field truthiness, and the message of the transport error itself. -/
def mkRespErr (status : Nat) (env : Option ErrorEnvelope) (hasReq : Bool)
    (tmsg : String) : CaughtValue :=
  .axiosErr (some { status := status, data := env }) hasReq tmsg

/-- `ClientConfig` as a dynamic (JavaScript-level) caller may supply it.
The TypeScript interface declares `baseURL : string` required and the other
two fields optional; at runtime any of them may be absent, which the
embedding makes visible with `Option`.  The async token-getter is embedded
as a function from the invocation index (how many times it has been called
so far) to the result of that invocation. -/
structure ClientConfig where
  baseURL : Option String
  getToken : Option (Nat → Option String)
  timeout : Option Nat

/-- The state of the axios instance that the `BaseClient` constructor builds
via `axios.create` plus the interceptor registrations. -/
structure AxiosInstance where
  baseURL : Option String
  timeout : Nat
  contentType : String
  hasAuthInterceptor : Bool
  hasErrorInterceptor : Bool
deriving DecidableEq, Repr

/-- The `BaseClient` constructor (`src/client.ts` lines 76-100).  It calls
`axios.create({ baseURL, timeout: config.timeout || 10000, headers })`,
registers the auth request interceptor exactly when `config.getToken` is
supplied, and always registers the error response interceptor.  No code
path throws: the result is always `Except.ok`.  (`Except ApiError` is the
failure type the constructor documentation declares.) -/
def BaseClient.create (config : ClientConfig) : Except ApiError AxiosInstance :=
  Except.ok
    { baseURL := config.baseURL
    , timeout := jsOrNat config.timeout 10000
    , contentType := "application/json"
    , hasAuthInterceptor := config.getToken.isSome
    , hasErrorInterceptor := true }

/-- The per-request timeout of the pipeline a configuration produces
(`none` would mean construction failed). -/
def pipelineTimeout (config : ClientConfig) : Option Nat :=
  match BaseClient.create config with
  | .ok inst => some inst.timeout
  | .error _ => none

/-- An outgoing HTTP request as the pipeline assembles it. -/
structure HttpRequest where
  method : String
  url : String
  body : Option String
  params : Option String
  contentType : String
  authorization : Option String
deriving DecidableEq, Repr

/-- An HTTP response: status and the decoded body the transport hands
back. -/
structure HttpResponse where
  status : Nat
  data : String
deriving DecidableEq, Repr

/-- How many times the token-getter has been invoked so far. -/
structure GetterState where
  calls : Nat
deriving DecidableEq, Repr

/-- The auth request interceptor (`src/client.ts` lines 86-92):
`const token = await getToken(); if (token) { headers.Authorization =
`Bearer ${token}` } return reqConfig`.  It invokes the getter exactly once
(the invocation index advances by one); a truthy (non-null, non-empty)
token sets the header, any falsy result leaves the request unchanged. -/
def authRequestInterceptor (getToken : Nat → Option String) (s : GetterState)
    (req : HttpRequest) : HttpRequest × GetterState :=
  match getToken s.calls with
  | some t =>
      if t = "" then (req, { calls := s.calls + 1 })
      else ({ req with authorization := some ("Bearer " ++ t) }, { calls := s.calls + 1 })
  | none => (req, { calls := s.calls + 1 })

/-- The request interceptor chain: the auth interceptor runs exactly when a
token-getter was configured (the constructor registers it conditionally). -/
def applyRequestInterceptors (getToken : Option (Nat → Option String))
    (s : GetterState) (req : HttpRequest) : HttpRequest × GetterState :=
  match getToken with
  | some g => authRequestInterceptor g s req
  | none => (req, s)

/-- A request as a verb method first assembles it: the axios instance
carries the `Content-Type: application/json` default header and no
`Authorization` header of its own. -/
def BaseClient.buildRequest (method url : String) (body params : Option String) :
    HttpRequest :=
  { method := method, url := url, body := body, params := params
  , contentType := "application/json", authorization := none }

/-- The observable outcome of one pipeline call: the decoded body returned
to the caller, the request as actually transmitted (after the request
interceptors), and the getter-invocation state after the call. -/
structure SendResult where
  data : String
  sent : HttpRequest
  state : GetterState
deriving Repr

/-- One happy-path round trip through the axios instance: run the request
interceptors, transmit, hand the decoded response body back. -/
def BaseClient.send (transport : HttpRequest → HttpResponse)
    (config : ClientConfig) (s : GetterState) (req : HttpRequest) : SendResult :=
  { data := (transport (applyRequestInterceptors config.getToken s req).1).data
  , sent := (applyRequestInterceptors config.getToken s req).1
  , state := (applyRequestInterceptors config.getToken s req).2 }

/-- `async get<T>(url, config?)` — `(await this.http.get(url, config)).data`. -/
def BaseClient.get (transport : HttpRequest → HttpResponse) (config : ClientConfig)
    (s : GetterState) (url : String) (params : Option String) : SendResult :=
  BaseClient.send transport config s (BaseClient.buildRequest "GET" url none params)

/-- `async post<T>(url, data?, config?)`. -/
def BaseClient.post (transport : HttpRequest → HttpResponse) (config : ClientConfig)
    (s : GetterState) (url : String) (body params : Option String) : SendResult :=
  BaseClient.send transport config s (BaseClient.buildRequest "POST" url body params)

/-- `async put<T>(url, data?, config?)`. -/
def BaseClient.put (transport : HttpRequest → HttpResponse) (config : ClientConfig)
    (s : GetterState) (url : String) (body params : Option String) : SendResult :=
  BaseClient.send transport config s (BaseClient.buildRequest "PUT" url body params)

/-- `async patch<T>(url, data?, config?)`. -/
def BaseClient.patch (transport : HttpRequest → HttpResponse) (config : ClientConfig)
    (s : GetterState) (url : String) (body params : Option String) : SendResult :=
  BaseClient.send transport config s (BaseClient.buildRequest "PATCH" url body params)

/-- `async delete<T>(url, config?)`. -/
def BaseClient.delete (transport : HttpRequest → HttpResponse) (config : ClientConfig)
    (s : GetterState) (url : String) (params : Option String) : SendResult :=
  BaseClient.send transport config s (BaseClient.buildRequest "DELETE" url none params)

/-- `NotificationClient.markAsRead(id?)`: `if (id) return
this.patch(...id route...); return this.patch(...read-all route...)`.  The JS guard `if (id)` is truthiness,
so both an absent id and an empty-string id take the mark-all route. -/
def NotificationClient.markAsRead (transport : HttpRequest → HttpResponse)
    (config : ClientConfig) (s : GetterState) (id : Option String) : SendResult :=
  match id with
  | some i =>
      if i = "" then BaseClient.patch transport config s "/notifications/read" none none
      else BaseClient.patch transport config s ("/notifications/" ++ i ++ "/read") none none
  | none => BaseClient.patch transport config s "/notifications/read" none none

/-- A concrete transport used to instantiate theorems on closed inputs. -/
def demoTransport : HttpRequest → HttpResponse :=
  fun _ => { status := 200, data := "ok" }

/-- Claim C1: the error classification is a total function with fixed branch
precedence — every caught value takes exactly one of the four branches, in
the order response-present, then request-sent-but-no-response, then generic
local error, then fallback; in particular a value carrying both a response
and a request classifies as response-present.  The last three conjuncts tie
the classification to the actual output of `handleApiError`. -/
theorem errorClassification_total_precedence (e : CaughtValue) :
    (branchOf e = ErrorBranch.responsePresent ↔ respPresentGuard e = true)
    ∧ (branchOf e = ErrorBranch.requestNoResponse ↔
        (respPresentGuard e = false ∧ reqGuard e = true))
    ∧ (branchOf e = ErrorBranch.localError ↔
        (respPresentGuard e = false ∧ reqGuard e = false ∧ e.isError = true))
    ∧ (branchOf e = ErrorBranch.fallback ↔
        (respPresentGuard e = false ∧ reqGuard e = false ∧ e.isError = false))
    ∧ (respPresentGuard e = true → reqGuard e = true →
        branchOf e = ErrorBranch.responsePresent)
    ∧ (branchOf e = ErrorBranch.requestNoResponse →
        handleApiError e =
          { code := "NETWORK_ERROR", message := "Network error - unable to reach server"
          , status := 0, details := none })
    ∧ (branchOf e = ErrorBranch.localError →
        handleApiError e =
          { code := "CLIENT_ERROR", message := e.message, status := 0, details := none })
    ∧ (branchOf e = ErrorBranch.fallback →
        handleApiError e =
          { code := "UNKNOWN_ERROR", message := "An unknown error occurred"
          , status := 0, details := none }) := by
  rcases e with ⟨r, q, m⟩ | m | _
  · rcases r with _ | resp
    · cases q <;>
        simp [branchOf, respPresentGuard, reqGuard, CaughtValue.isAxiosError,
          CaughtValue.response, CaughtValue.hasRequest, CaughtValue.isError,
          CaughtValue.message, handleApiError]
    · simp [branchOf, respPresentGuard, reqGuard, CaughtValue.isAxiosError,
        CaughtValue.response, CaughtValue.hasRequest, CaughtValue.isError,
        CaughtValue.message, handleApiError]
  · simp [branchOf, respPresentGuard, reqGuard, CaughtValue.isAxiosError,
      CaughtValue.response, CaughtValue.hasRequest, CaughtValue.isError,
      CaughtValue.message, handleApiError]
  · simp [branchOf, respPresentGuard, reqGuard, CaughtValue.isAxiosError,
      CaughtValue.response, CaughtValue.hasRequest, CaughtValue.isError,
      CaughtValue.message, handleApiError]

theorem errorClassification_total_precedence_witness :
    branchOf (CaughtValue.axiosErr (some { status := 404, data := none }) true "boom")
      = ErrorBranch.responsePresent :=
  (errorClassification_total_precedence
    (CaughtValue.axiosErr (some { status := 404, data := none }) true "boom")).2.2.2.2.1
    rfl rfl

/-- Claim C5: a caught axios failure whose request was sent but for which no
response was ever received (connection, DNS and timeout failures all
surface as an axios error with a `request` but no `response`) normalizes to
code `NETWORK_ERROR`, status 0, the fixed human-readable message, and no
details — for every transport message. -/
theorem networkError_normalization (msg : String) :
    handleApiError (CaughtValue.axiosErr none true msg) =
      { code := "NETWORK_ERROR", message := "Network error - unable to reach server"
      , status := 0, details := none } := rfl

/-- Counterexample to claim C2 as stated: the envelope code is present
(`some ""`) yet the normalized code is not that code — the source uses the
JS `||` fallback, which also discards a present-but-empty code. -/
theorem responseError_code_presence_counterexample :
    ErrorEnvelope.code
        { code := some "", message := some "Campaign not found", details := none }
      = some ""
    ∧ (handleApiError (mkRespErr 404
        (some { code := some "", message := some "Campaign not found", details := none })
        true "Request failed with status code 404")).code ≠ "" :=
  ⟨rfl, by decide⟩

/-- Claim C2 (amended): for a caught failure carrying a received HTTP
response, the normalized error has the response status as-is and the
envelope details passed through untouched; its code is the envelope code
when that is present and non-empty, else `UNKNOWN_ERROR`; its message is
the envelope message when present and non-empty, else the transport message
when non-empty, else `Unknown error`. -/
theorem responseError_normalization (status : Nat) (env : Option ErrorEnvelope)
    (hasReq : Bool) (tmsg : String) :
    (handleApiError (mkRespErr status env hasReq tmsg)).status = status
    ∧ (handleApiError (mkRespErr status env hasReq tmsg)).details
        = env.bind ErrorEnvelope.details
    ∧ (∀ c, env.bind ErrorEnvelope.code = some c → c ≠ "" →
        (handleApiError (mkRespErr status env hasReq tmsg)).code = c)
    ∧ ((env.bind ErrorEnvelope.code = none ∨ env.bind ErrorEnvelope.code = some "") →
        (handleApiError (mkRespErr status env hasReq tmsg)).code = "UNKNOWN_ERROR")
    ∧ (∀ m, env.bind ErrorEnvelope.message = some m → m ≠ "" →
        (handleApiError (mkRespErr status env hasReq tmsg)).message = m)
    ∧ ((env.bind ErrorEnvelope.message = none ∨ env.bind ErrorEnvelope.message = some "") →
        (tmsg ≠ "" → (handleApiError (mkRespErr status env hasReq tmsg)).message = tmsg)
        ∧ (tmsg = "" →
            (handleApiError (mkRespErr status env hasReq tmsg)).message = "Unknown error")) := by
  refine ⟨rfl, rfl, ?_, ?_, ?_, ?_⟩
  · intro c hc hne
    simp [handleApiError, mkRespErr, jsOr, hc, hne]
  · rintro (hc | hc) <;> simp [handleApiError, mkRespErr, jsOr, hc]
  · intro m hm hne
    simp [handleApiError, mkRespErr, jsOr, hm, hne]
  · rintro (hm | hm) <;>
      exact ⟨fun ht => by simp [handleApiError, mkRespErr, jsOr, jsOrS, hm, ht],
             fun ht => by simp [handleApiError, mkRespErr, jsOr, jsOrS, hm, ht]⟩

theorem responseError_normalization_witness :
    (handleApiError (mkRespErr 404
        (some { code := some "NOT_FOUND", message := some "Campaign not found"
              , details := none })
        true "Request failed with status code 404")).code = "NOT_FOUND"
    ∧ (handleApiError (mkRespErr 404
        (some { code := some "NOT_FOUND", message := some "Campaign not found"
              , details := none })
        true "Request failed with status code 404")).status = 404
    ∧ (handleApiError (mkRespErr 404
        (some { code := some "NOT_FOUND", message := some "Campaign not found"
              , details := none })
        true "Request failed with status code 404")).message = "Campaign not found" := by
  have h := responseError_normalization 404
    (some { code := some "NOT_FOUND", message := some "Campaign not found", details := none })
    true "Request failed with status code 404"
  exact ⟨h.2.2.1 "NOT_FOUND" rfl (by decide), h.1,
    h.2.2.2.2.1 "Campaign not found" rfl (by decide)⟩

/-- Claim C10: the normalized code is never derived from the HTTP status —
when the response body carries no `error.code`, the code is
`UNKNOWN_ERROR` whatever the status, which is still reported as-is. -/
theorem code_not_derived_from_status (status : Nat) (env : Option ErrorEnvelope)
    (hasReq : Bool) (tmsg : String) (h : env.bind ErrorEnvelope.code = none) :
    (handleApiError (mkRespErr status env hasReq tmsg)).code = "UNKNOWN_ERROR"
    ∧ (handleApiError (mkRespErr status env hasReq tmsg)).status = status := by
  refine ⟨?_, rfl⟩
  simp [handleApiError, mkRespErr, jsOr, h]

theorem code_not_derived_from_status_witness :
    (handleApiError (mkRespErr 404 none false "Request failed with status code 404")).code
      = "UNKNOWN_ERROR"
    ∧ (handleApiError (mkRespErr 404 none false "Request failed with status code 404")).status
      = 404 :=
  code_not_derived_from_status 404 none false "Request failed with status code 404" rfl

/-- Counterexample to claim C3 as stated: the token-getter yields the
non-null string `""`, yet no `Authorization` header is set — the source
guard `if (token)` is JS truthiness, which also rejects an empty token. -/
theorem bearerHeader_counterexample :
    (fun _ : Nat => (some "" : Option String)) 0 = some ""
    ∧ (BaseClient.send demoTransport
        { baseURL := some "https://api.clipdeck.io"
        , getToken := some (fun _ => some ""), timeout := none }
        { calls := 0 }
        (BaseClient.buildRequest "GET" "/campaigns" none none)).sent.authorization
      = none :=
  ⟨rfl, rfl⟩

/-- Claim C3 (amended): with a configured token-getter, a non-null and
non-empty token result makes the transmitted request carry
`Authorization: Bearer <token>`; a null (or empty) result leaves the
request without the header; and the getter is invoked exactly once per
outgoing request — the invocation index advances by exactly one, so each
request consumes a fresh result. -/
theorem bearerHeader_rules (g : Nat → Option String)
    (transport : HttpRequest → HttpResponse) (config : ClientConfig)
    (s : GetterState) (method url : String) (body params : Option String)
    (hg : config.getToken = some g) :
    (∀ tok, g s.calls = some tok → tok ≠ "" →
        (BaseClient.send transport config s
          (BaseClient.buildRequest method url body params)).sent.authorization
          = some ("Bearer " ++ tok))
    ∧ (g s.calls = none →
        (BaseClient.send transport config s
          (BaseClient.buildRequest method url body params)).sent.authorization = none)
    ∧ (g s.calls = some "" →
        (BaseClient.send transport config s
          (BaseClient.buildRequest method url body params)).sent.authorization = none)
    ∧ (BaseClient.send transport config s
        (BaseClient.buildRequest method url body params)).state.calls = s.calls + 1 := by
  refine ⟨?_, ?_, ?_, ?_⟩
  · intro tok htok hne
    simp [BaseClient.send, applyRequestInterceptors, authRequestInterceptor, hg, htok,
      hne, BaseClient.buildRequest]
  · intro htok
    simp [BaseClient.send, applyRequestInterceptors, authRequestInterceptor, hg, htok,
      BaseClient.buildRequest]
  · intro htok
    simp [BaseClient.send, applyRequestInterceptors, authRequestInterceptor, hg, htok,
      BaseClient.buildRequest]
  · cases htok : g s.calls with
    | none =>
        simp [BaseClient.send, applyRequestInterceptors, authRequestInterceptor, hg, htok]
    | some t =>
        by_cases ht : t = "" <;>
          simp [BaseClient.send, applyRequestInterceptors, authRequestInterceptor, hg,
            htok, ht]

theorem bearerHeader_rules_witness :
    (BaseClient.send demoTransport
      { baseURL := some "https://api.clipdeck.io"
      , getToken := some (fun _ => some "tok123"), timeout := none }
      { calls := 0 }
      (BaseClient.buildRequest "GET" "/campaigns" none none)).sent.authorization
      = some ("Bearer " ++ "tok123")
    ∧ (BaseClient.send demoTransport
      { baseURL := some "https://api.clipdeck.io"
      , getToken := some (fun _ => some "tok123"), timeout := none }
      { calls := 0 }
      (BaseClient.buildRequest "GET" "/campaigns" none none)).state.calls = 1 := by
  have h := bearerHeader_rules (fun _ => some "tok123") demoTransport
    { baseURL := some "https://api.clipdeck.io"
    , getToken := some (fun _ => some "tok123"), timeout := none }
    { calls := 0 } "GET" "/campaigns" none none rfl
  exact ⟨h.1 "tok123" rfl (by decide), h.2.2.2⟩

/-- Counterexample to claim C4 as stated: a configuration lacking a base
address still produces a pipeline instance — the constructor performs no
runtime presence check and succeeds. -/
theorem construction_missingBase_counterexample :
    (BaseClient.create { baseURL := none, getToken := none, timeout := none }).isOk
      = true := rfl

/-- Claim C4 (amended): the base address is required only by the static
configuration type; the constructor performs no runtime validation and
never fails — for every dynamically supplied configuration it produces a
pipeline instance carrying the configured base address as-is (and the
always-registered error interceptor). -/
theorem construction_no_runtime_check (config : ClientConfig) :
    ∃ inst : AxiosInstance, BaseClient.create config = Except.ok inst
      ∧ inst.baseURL = config.baseURL ∧ inst.hasErrorInterceptor = true :=
  ⟨_, rfl, rfl, rfl⟩

/-- Claim C6: for every configuration without a token-getter, no request
issued through the pipeline carries an `Authorization` header — over every
verb operation and over `markAsRead` (the one resource method with routing
logic), for every path, body, query and getter state. -/
theorem noGetter_noAuthHeader (transport : HttpRequest → HttpResponse)
    (config : ClientConfig) (s : GetterState) (method url : String)
    (body params : Option String) (id : Option String)
    (h : config.getToken = none) :
    (BaseClient.send transport config s
        (BaseClient.buildRequest method url body params)).sent.authorization = none
    ∧ (BaseClient.get transport config s url params).sent.authorization = none
    ∧ (BaseClient.post transport config s url body params).sent.authorization = none
    ∧ (BaseClient.put transport config s url body params).sent.authorization = none
    ∧ (BaseClient.patch transport config s url body params).sent.authorization = none
    ∧ (BaseClient.delete transport config s url params).sent.authorization = none
    ∧ (NotificationClient.markAsRead transport config s id).sent.authorization = none := by
  have base : ∀ m u (b p : Option String),
      (BaseClient.send transport config s
        (BaseClient.buildRequest m u b p)).sent.authorization = none := by
    intro m u b p
    simp [BaseClient.send, applyRequestInterceptors, h, BaseClient.buildRequest]
  refine ⟨base _ _ _ _, base _ _ _ _, base _ _ _ _, base _ _ _ _, base _ _ _ _,
    base _ _ _ _, ?_⟩
  cases id with
  | none => exact base _ _ _ _
  | some i =>
      by_cases hi : i = "" <;>
        simp only [NotificationClient.markAsRead, hi, if_pos, if_neg, reduceIte] <;>
          exact base _ _ _ _

theorem noGetter_noAuthHeader_witness :
    (BaseClient.get demoTransport
      { baseURL := some "https://api.clipdeck.io", getToken := none, timeout := none }
      { calls := 0 } "/campaigns" none).sent.authorization = none := by
  have h := noGetter_noAuthHeader demoTransport
    { baseURL := some "https://api.clipdeck.io", getToken := none, timeout := none }
    { calls := 0 } "GET" "/campaigns" none none none rfl
  exact h.2.1

/-- A transmitted request preserves the method, url, body and query of the
request the verb assembled (the auth interceptor touches only the
`Authorization` header), and the value handed back to the caller is the
decoded body of the transport response for exactly that request. -/
theorem send_spec (transport : HttpRequest → HttpResponse) (config : ClientConfig)
    (s : GetterState) (req : HttpRequest) :
    (BaseClient.send transport config s req).sent.method = req.method
    ∧ (BaseClient.send transport config s req).sent.url = req.url
    ∧ (BaseClient.send transport config s req).sent.body = req.body
    ∧ (BaseClient.send transport config s req).sent.params = req.params
    ∧ (BaseClient.send transport config s req).data
        = (transport (BaseClient.send transport config s req).sent).data := by
  cases hG : config.getToken with
  | none => simp [BaseClient.send, applyRequestInterceptors, hG]
  | some g =>
      cases ht : g s.calls with
      | none =>
          simp [BaseClient.send, applyRequestInterceptors, authRequestInterceptor, hG, ht]
      | some t =>
          by_cases he : t = "" <;>
            simp [BaseClient.send, applyRequestInterceptors, authRequestInterceptor,
              hG, ht, he]

/-- Claim C7: happy-path round-trip identity — each verb operation passes
its path and body unchanged to the transport (get and delete send no body)
and returns the decoded body of the transport response unchanged. -/
theorem verb_passthrough (transport : HttpRequest → HttpResponse)
    (config : ClientConfig) (s : GetterState) (url : String)
    (body params : Option String) :
    ((BaseClient.get transport config s url params).sent.method = "GET"
      ∧ (BaseClient.get transport config s url params).sent.url = url
      ∧ (BaseClient.get transport config s url params).sent.body = none
      ∧ (BaseClient.get transport config s url params).data
          = (transport (BaseClient.get transport config s url params).sent).data)
    ∧ ((BaseClient.post transport config s url body params).sent.method = "POST"
      ∧ (BaseClient.post transport config s url body params).sent.url = url
      ∧ (BaseClient.post transport config s url body params).sent.body = body
      ∧ (BaseClient.post transport config s url body params).data
          = (transport (BaseClient.post transport config s url body params).sent).data)
    ∧ ((BaseClient.put transport config s url body params).sent.method = "PUT"
      ∧ (BaseClient.put transport config s url body params).sent.url = url
      ∧ (BaseClient.put transport config s url body params).sent.body = body
      ∧ (BaseClient.put transport config s url body params).data
          = (transport (BaseClient.put transport config s url body params).sent).data)
    ∧ ((BaseClient.patch transport config s url body params).sent.method = "PATCH"
      ∧ (BaseClient.patch transport config s url body params).sent.url = url
      ∧ (BaseClient.patch transport config s url body params).sent.body = body
      ∧ (BaseClient.patch transport config s url body params).data
          = (transport (BaseClient.patch transport config s url body params).sent).data)
    ∧ ((BaseClient.delete transport config s url params).sent.method = "DELETE"
      ∧ (BaseClient.delete transport config s url params).sent.url = url
      ∧ (BaseClient.delete transport config s url params).sent.body = none
      ∧ (BaseClient.delete transport config s url params).data
          = (transport (BaseClient.delete transport config s url params).sent).data) := by
  have hGet := send_spec transport config s (BaseClient.buildRequest "GET" url none params)
  have hPost := send_spec transport config s (BaseClient.buildRequest "POST" url body params)
  have hPut := send_spec transport config s (BaseClient.buildRequest "PUT" url body params)
  have hPatch := send_spec transport config s (BaseClient.buildRequest "PATCH" url body params)
  have hDel := send_spec transport config s (BaseClient.buildRequest "DELETE" url none params)
  exact ⟨⟨hGet.1, hGet.2.1, hGet.2.2.1, hGet.2.2.2.2⟩,
    ⟨hPost.1, hPost.2.1, hPost.2.2.1, hPost.2.2.2.2⟩,
    ⟨hPut.1, hPut.2.1, hPut.2.2.1, hPut.2.2.2.2⟩,
    ⟨hPatch.1, hPatch.2.1, hPatch.2.2.1, hPatch.2.2.2.2⟩,
    ⟨hDel.1, hDel.2.1, hDel.2.2.1, hDel.2.2.2.2⟩⟩

/-- Counterexample to claim C8 as stated: the supplied id `""` routes to the
mark-all path `/notifications/read`, not to `/notifications//read` — the
source guard `if (id)` is JS truthiness, which sends an empty id down the
no-id route. -/
theorem markAsRead_empty_id_counterexample :
    (NotificationClient.markAsRead demoTransport
      { baseURL := some "https://api.clipdeck.io", getToken := none, timeout := none }
      { calls := 0 } (some "")).sent.url = "/notifications/read"
    ∧ "/notifications/read" ≠ "/notifications/" ++ "" ++ "/read" :=
  ⟨rfl, by decide⟩

/-- Claim C8 (amended): `markAsRead` with a non-empty id issues `PATCH` to
`/notifications/{id}/read`; with no id — or with the (falsy) empty id — it
issues `PATCH` to `/notifications/read`. -/
theorem markAsRead_routing (transport : HttpRequest → HttpResponse)
    (config : ClientConfig) (s : GetterState) (i : String) (h : i ≠ "") :
    NotificationClient.markAsRead transport config s (some i)
      = BaseClient.patch transport config s ("/notifications/" ++ i ++ "/read") none none
    ∧ NotificationClient.markAsRead transport config s none
      = BaseClient.patch transport config s "/notifications/read" none none
    ∧ NotificationClient.markAsRead transport config s (some "")
      = BaseClient.patch transport config s "/notifications/read" none none
    ∧ (NotificationClient.markAsRead transport config s (some i)).sent.method = "PATCH"
    ∧ (NotificationClient.markAsRead transport config s (some i)).sent.url
        = "/notifications/" ++ i ++ "/read"
    ∧ (NotificationClient.markAsRead transport config s (some i)).sent.body = none
    ∧ (NotificationClient.markAsRead transport config s none).sent.url
        = "/notifications/read" := by
  have hmain : NotificationClient.markAsRead transport config s (some i)
      = BaseClient.patch transport config s ("/notifications/" ++ i ++ "/read") none none := by
    simp [NotificationClient.markAsRead, h]
  have hspec := send_spec transport config s
    (BaseClient.buildRequest "PATCH" ("/notifications/" ++ i ++ "/read") none none)
  have hspec2 := send_spec transport config s
    (BaseClient.buildRequest "PATCH" "/notifications/read" none none)
  refine ⟨hmain, rfl, rfl, ?_, ?_, ?_, hspec2.2.1⟩
  · rw [hmain]; exact hspec.1
  · rw [hmain]; exact hspec.2.1
  · rw [hmain]; exact hspec.2.2.1

theorem markAsRead_routing_witness :
    (NotificationClient.markAsRead demoTransport
      { baseURL := some "https://api.clipdeck.io", getToken := none, timeout := none }
      { calls := 0 } (some "notif_abc123")).sent.url
      = "/notifications/" ++ "notif_abc123" ++ "/read" := by
  have h := markAsRead_routing demoTransport
    { baseURL := some "https://api.clipdeck.io", getToken := none, timeout := none }
    { calls := 0 } "notif_abc123" (by decide)
  exact h.2.2.2.2.1

/-- Counterexample to claim C9 as stated: a supplied timeout of 0 ms does
not become the effective timeout — the `config.timeout || 10000` fallback
treats the falsy 0 as absent and applies the default. -/
theorem timeout_zero_counterexample :
    pipelineTimeout
        { baseURL := some "https://api.clipdeck.io", getToken := none, timeout := some 0 }
      = some 10000
    ∧ (10000 : Nat) ≠ 0 :=
  ⟨rfl, by decide⟩

/-- Claim C9 (amended): the effective per-request timeout is 10000 ms when
the configuration omits the timeout — or supplies the falsy value 0 — and
equals the configured value whenever a nonzero timeout is supplied. -/
theorem effectiveTimeout_rules (config : ClientConfig) :
    (config.timeout = none → pipelineTimeout config = some 10000)
    ∧ (config.timeout = some 0 → pipelineTimeout config = some 10000)
    ∧ (∀ n, n ≠ 0 → config.timeout = some n → pipelineTimeout config = some n) := by
  refine ⟨fun h => ?_, fun h => ?_, fun n hn h => ?_⟩
  · simp [pipelineTimeout, BaseClient.create, jsOrNat, h]
  · simp [pipelineTimeout, BaseClient.create, jsOrNat, h]
  · simp [pipelineTimeout, BaseClient.create, jsOrNat, h, hn]

theorem effectiveTimeout_rules_witness :
    pipelineTimeout
        { baseURL := some "https://api.clipdeck.io", getToken := none, timeout := some 5000 }
      = some 5000 :=
  (effectiveTimeout_rules
    { baseURL := some "https://api.clipdeck.io", getToken := none, timeout := some 5000 }).2.2
    5000 (by decide) rfl
